import Mathlib

/-!
Verification of the MCOA command-center core against its specification.

The definitions below are a shallow embedding of the Python sources:
* `src/tools/s3_operations.py` — `compute_operation_feasibility`
* `src/app.py`                 — `emit_tool_event`, the `handle_query` worker
* `src/tools/monitoring.py`    — `monitor_tool`
* `src/tools/report_generation.py` — `generate_decision_package`
* `src/mcoa_service.py`        — `MCOAService.process_query`

Python dynamic values are modelled by `PyVal` (ints, strings, dicts, None);
operations that can raise are modelled in `Option`, where `none` plays the
role of a raised exception caught by the enclosing `try`/`except` block.
Python floats appearing in the vehicle-rate computation are modelled by exact
rationals; nothing proved here depends on a float-rounding boundary.
-/

/-- A Python value, as far as the feasibility tool inspects one: an int, a
string, a dict (association list, keys unique), or `None`.  Floats and other
object types are not needed by any claim and behave like `vNone` (every
numeric operation on them in the embedding "raises"). -/
inductive PyVal where
  | vInt (n : Int)
  | vStr (s : String)
  | vDict (d : List (String × PyVal))
  | vNone

/-- `d.get(k, default)` on an association list: first binding of `k`, else the
default.  (Python dict keys are unique, so first = only.) -/
def assocD (l : List (String × PyVal)) (k : String) (d : PyVal) : PyVal :=
  match l.find? (fun p => p.1 == k) with
  | some p => p.2
  | none => d

/-- `v.get(k, default)`: succeeds only when `v` is a dict; on any other value
Python raises `AttributeError`, modelled as `none`. -/
def pyGet : PyVal → String → PyVal → Option PyVal
  | .vDict l, k, d => some (assocD l k d)
  | _, _, _ => none

/-- Python truthiness of a value (`if sustainment:` etc.). -/
def pyTruthy : PyVal → Bool
  | .vInt n => n != 0
  | .vStr s => s != ""
  | .vDict l => !l.isEmpty
  | .vNone => false

/-- `isinstance(v, dict)`. -/
def isDictV : PyVal → Bool
  | .vDict _ => true
  | _ => false

/-- Python `a >= b`: defined between two ints or two strings, a `TypeError`
(`none`) otherwise. -/
def pyGe : PyVal → PyVal → Option Bool
  | .vInt a, .vInt b => some (decide (b ≤ a))
  | .vStr a, .vStr b => some (decide (b ≤ a))
  | _, _ => none

/-- Python `v == "lit"` for a string literal: true exactly when `v` is that
string; comparing unlike types yields `False`, never raises. -/
def eqStr (v : PyVal) (lit : String) : Bool :=
  match v with
  | .vStr s => s == lit
  | _ => false

/-- Outcome of running a Python callable: a value, or a raised exception
carrying its message. -/
inductive PyOutcome (α : Type) where
  | ok (v : α)
  | exc (e : String)
deriving DecidableEq, Repr

/-- Lower-casing of a string, character by character (Python `str.lower` on
the basic latin letters these tools use).  Defined over the character list so
it reduces in the kernel — core `String.toLower` is well-founded recursion. -/
def lowerStr (s : String) : String :=
  String.mk (s.data.map Char.toLower)

/-- Digits of a decimal numeral, accumulating; `none` on a non-digit. -/
def parseDigitsGo : List Char → Nat → Option Nat
  | [], acc => some acc
  | c :: cs, acc =>
      if c.isDigit then parseDigitsGo cs (acc * 10 + (c.toNat - 48)) else none

/-- A non-empty all-digits string, as a natural number. -/
def parseDigitsNE : List Char → Option Nat
  | [] => none
  | cs => parseDigitsGo cs 0

/-- Whitespace trimmed from both ends (Python `int` ignores surrounding
whitespace). -/
def trimChars (cs : List Char) : List Char :=
  ((cs.dropWhile Char.isWhitespace).reverse.dropWhile Char.isWhitespace).reverse

/-- Python `int(s)` on a string: optional sign, decimal digits, surrounding
whitespace; `ValueError` (`none`) otherwise. -/
def pyParseInt (s : String) : Option Int :=
  match trimChars s.data with
  | '-' :: rest => (parseDigitsNE rest).map (fun n => -(n : Int))
  | '+' :: rest => (parseDigitsNE rest).map (fun n => (n : Int))
  | cs => (parseDigitsNE cs).map (fun n => (n : Int))

/-- `int(str(v).replace("%", "") or 0)` from the readiness criterion.  For an
int `n`, `str(n)` contains no `%` and parses back to `n`; for a string the
`%` signs are removed and the empty string falls back to 0; `str(None)` is
`"None"` and `str` of a dict is brace-delimited — neither ever parses. -/
def pyIntOfShown : PyVal → Option Int
  | .vInt n => some n
  | .vStr s =>
      match s.data.filter (fun c => c != '%') with
      | [] => some 0
      | cs => pyParseInt (String.mk cs)
  | .vNone => none
  | .vDict _ => none

/-! ## compute_operation_feasibility (src/tools/s3_operations.py, lines 209-272)

Each `try: ... except Exception: pass` block becomes one sub-score function;
a raised exception inside the block loses the points not yet added and the
computation continues.  Mirroring the source, points already added before the
raising statement are kept. -/

/-- Weather criterion: `wind = weather.get("wind_speed_mph", 10)`,
`vis = weather.get("visibility_meters", 10000)`, then `+1` if `wind <= 20`
and `+1` if `vis >= 5000`.  A non-int `wind` raises before any point is
added; a non-int `vis` raises after the wind point was added. -/
def weatherScore (weather : PyVal) : Int :=
  match pyGet weather "wind_speed_mph" (.vInt 10),
        pyGet weather "visibility_meters" (.vInt 10000) with
  | some (.vInt w), some vis =>
      (if w ≤ 20 then 1 else 0) +
      (match vis with
       | .vInt v => if 5000 ≤ v then 1 else 0
       | _ => 0)
  | _, _ => 0

/-- Terrain criterion: `+1` if `terrain.get("mobility_assessment",
"Good").lower() == "good"`; a non-string mobility value has no `.lower()`
and raises. -/
def terrainScore (terrain : PyVal) : Int :=
  match pyGet terrain "mobility_assessment" (.vStr "Good") with
  | some (.vStr m) => if lowerStr m = "good" then 1 else 0
  | _ => 0

/-- Threat criterion: `{"LOW": 2, "MODERATE": 1}.get(level, 0)`.  A non-string
hashable level just misses the table (0 points); an unhashable level raises
(also 0 points). -/
def threatScore (threat : PyVal) : Int :=
  match pyGet threat "threat_level" (.vStr "MODERATE") with
  | some (.vStr l) => if l = "LOW" then 2 else if l = "MODERATE" then 1 else 0
  | _ => 0

/-- Readiness criterion: both percent strings are extracted and parsed before
any point is added, so any failure yields 0 for the whole criterion. -/
def readinessScore (readiness : PyVal) : Int :=
  match pyGet readiness "personnel_strength" (.vDict []) with
  | none => 0
  | some ps =>
    match pyGet ps "readiness_percent" (.vStr "90%") with
    | none => 0
    | some pr =>
      match pyGet readiness "equipment_readiness" (.vStr "90%") with
      | none => 0
      | some er =>
        match pyIntOfShown pr, pyIntOfShown er with
        | some prv, some erv =>
            (if 90 ≤ prv then 1 else 0) + (if 85 ≤ erv then 1 else 0)
        | _, _ => 0

/-- Vehicle criterion: `rate = (op / total) * 100 if total else 0`, `+1` if
`rate >= 70`.  A falsy `total` gives rate 0; a truthy non-int operand makes
the division raise.  Exact rational arithmetic stands in for Python floats. -/
def vehicleScore (vehicle_status : PyVal) : Int :=
  match pyGet vehicle_status "operational" (.vInt 0),
        pyGet vehicle_status "total" (.vInt 1) with
  | some op, some total =>
      if pyTruthy total then
        match op, total with
        | .vInt o, .vInt t => if (70 : ℚ) ≤ (o : ℚ) / (t : ℚ) * 100 then 1 else 0
        | _, _ => 0
      else 0
  | _, _ => 0

/-- Comms criterion: both statuses are extracted before any point is added;
`== "OPERATIONAL"` never raises. -/
def commsScore (comms : PyVal) : Int :=
  match pyGet comms "primary_net" (.vDict []) with
  | none => 0
  | some p =>
    match pyGet p "status" (.vStr "OPERATIONAL") with
    | none => 0
    | some ps =>
      match pyGet comms "alternate_net" (.vDict []) with
      | none => 0
      | some a =>
        match pyGet a "status" (.vStr "OPERATIONAL") with
        | none => 0
        | some alts =>
            (if eqStr ps "OPERATIONAL" then 1 else 0) +
            (if eqStr alts "OPERATIONAL" then 1 else 0)

/-- `sustainment.get("requirements", {}).get(k, 0)`. -/
def susReqField (sus : PyVal) (k : String) : Option PyVal :=
  match pyGet sus "requirements" (.vDict []) with
  | some req => pyGet req k (.vInt 0)
  | none => none

/-- Sustainment block: runs only when `sustainment` is truthy and a dict.
All four extractions happen before the comparison; any raising step leaves
`sustainment_ok` true with 0 points.  The `and` short-circuits: a false first
comparison decides `sustainment_ok = False` without evaluating the second.
Returns (points, sustainment_ok). -/
def sustainmentEval (sus mres fuel : PyVal) : Int × Bool :=
  if pyTruthy sus && isDictV sus then
    match susReqField sus "mres_required", susReqField sus "fuel_required_gallons",
          pyGet mres "quantity" (.vInt 0), pyGet fuel "quantity" (.vInt 0) with
    | some mr, some fr, some mh, some fh =>
        (match pyGe mh mr with
         | none => (0, true)
         | some false => (0, false)
         | some true =>
             match pyGe fh fr with
             | none => (0, true)
             | some false => (0, false)
             | some true => (2, true))
    | _, _, _, _ => (0, true)
  else (0, true)

/-- The inputs of `compute_operation_feasibility` that influence the decision;
the purely narrative arguments (operation name, grid, times) are omitted. -/
structure FeasInput where
  weather : PyVal
  terrain : PyVal
  threat : PyVal
  readiness : PyVal
  vehicle_status : PyVal
  supply_mres : PyVal
  supply_fuel : PyVal
  comms : PyVal
  sustainment : PyVal

/-- The machine-readable part of the returned dict.  The narrative string
itself is not modelled: its assembly cannot alter these fields, and each of
its blocks is guarded by try/except EXCEPT the requirements line — that one
uncaught error path is modelled by `compute_operation_feasibility_run`
below. -/
structure FeasResult where
  decision : String
  score : Int
  sustainment_ok : Bool
deriving DecidableEq, Repr

/-- The decision expression of the source, verbatim. -/
def decisionOf (score : Int) (sustainment_ok : Bool) : String :=
  if 7 ≤ score ∧ sustainment_ok = true then "GO"
  else if 5 ≤ score then "GO WITH CAVEATS"
  else "NO-GO"

/-- Shallow embedding of the scoring and decision computation of
`compute_operation_feasibility` — the fields of the dict the function
returns whenever it returns.  The complete call, including the one uncaught
exception the narrative assembly can raise, is
`compute_operation_feasibility_run`. -/
def compute_operation_feasibility (i : FeasInput) : FeasResult :=
  let base := weatherScore i.weather + terrainScore i.terrain + threatScore i.threat +
              readinessScore i.readiness + vehicleScore i.vehicle_status + commsScore i.comms
  let se := sustainmentEval i.sustainment i.supply_mres i.supply_fuel
  { decision := decisionOf (base + se.1) se.2
    score := base + se.1
    sustainment_ok := se.2 }

/-- The requirements line of the narrative is NOT wrapped in try/except:
for a truthy dict `sustainment`, `req = sustainment.get('requirements', {})`
is safe, but `req.get('mres_required', '?')` raises `AttributeError` when
the present `requirements` value is not a dict. -/
def requirementsLineRaises (sus : PyVal) : Bool :=
  match sus with
  | .vDict d => pyTruthy (.vDict d) && !isDictV (assocD d "requirements" (.vDict []))
  | _ => false

/-- The full tool call: scoring and decision, then narrative assembly.
Every narrative block sits inside its own try/except and cannot affect the
returned fields, except the unguarded requirements rendering, whose
`AttributeError` escapes the function. -/
def compute_operation_feasibility_run (i : FeasInput) : PyOutcome FeasResult :=
  if requirementsLineRaises i.sustainment then .exc "AttributeError"
  else .ok (compute_operation_feasibility i)

/-- Ordinal rank of a decision: NO-GO < GO WITH CAVEATS < GO. -/
def decRank (d : String) : Nat :=
  if d = "GO" then 2 else if d = "GO WITH CAVEATS" then 1 else 0

/-- An input whose criterion records are all empty dicts, with no sustainment
given: every field falls back to its built-in default. -/
def emptyFeasInput : FeasInput :=
  { weather := .vDict [], terrain := .vDict [], threat := .vDict []
    readiness := .vDict [], vehicle_status := .vDict []
    supply_mres := .vDict [], supply_fuel := .vDict [], comms := .vDict []
    sustainment := .vNone }

/-- The rational comparison in `vehicleScore` does not kernel-reduce, so the
two concrete vehicle records used below get evaluation lemmas via `norm_num`. -/
theorem vehicleScore_empty_dict : vehicleScore (PyVal.vDict []) = 0 := by
  show (if (70 : ℚ) ≤ (((0 : Int) : ℚ)) / (((1 : Int) : ℚ)) * 100 then (1 : Int) else 0) = 0
  rw [if_neg (by norm_num)]

/-- A fully operational vehicle record (1 of 1) earns the vehicle point. -/
theorem vehicleScore_one_of_one :
    vehicleScore (PyVal.vDict [("operational", .vInt 1), ("total", .vInt 1)]) = 1 := by
  show (if (70 : ℚ) ≤ (((1 : Int) : ℚ)) / (((1 : Int) : ℚ)) * 100 then (1 : Int) else 0) = 1
  rw [if_pos (by norm_num)]

/-- All-empty criterion dicts land on the favorable defaults: total score 8,
sustainment vacuously OK, decision GO. -/
theorem compute_empty_eval : compute_operation_feasibility emptyFeasInput =
    { decision := "GO", score := 8, sustainment_ok := true } := by
  show ({ decision := decisionOf (weatherScore (.vDict []) + terrainScore (.vDict []) +
            threatScore (.vDict []) + readinessScore (.vDict []) +
            vehicleScore (.vDict []) + commsScore (.vDict []) +
            (sustainmentEval .vNone (.vDict []) (.vDict [])).1)
            (sustainmentEval .vNone (.vDict []) (.vDict [])).2
          score := weatherScore (.vDict []) + terrainScore (.vDict []) +
            threatScore (.vDict []) + readinessScore (.vDict []) +
            vehicleScore (.vDict []) + commsScore (.vDict []) +
            (sustainmentEval .vNone (.vDict []) (.vDict [])).1
          sustainment_ok := (sustainmentEval .vNone (.vDict []) (.vDict [])).2 } : FeasResult) = _
  rw [vehicleScore_empty_dict]
  decide

/-! ## Helper lemmas about the feasibility computation -/

/-- The score field is the sum of the seven criterion contributions. -/
theorem compute_score_eq (i : FeasInput) :
    (compute_operation_feasibility i).score =
      weatherScore i.weather + terrainScore i.terrain + threatScore i.threat +
      readinessScore i.readiness + vehicleScore i.vehicle_status + commsScore i.comms +
      (sustainmentEval i.sustainment i.supply_mres i.supply_fuel).1 := rfl

/-- The decision field is the decision expression applied to the score and
sustainment flag. -/
theorem compute_decision_eq (i : FeasInput) :
    (compute_operation_feasibility i).decision =
      decisionOf (compute_operation_feasibility i).score
        (compute_operation_feasibility i).sustainment_ok := rfl

theorem weatherScore_nonneg (v : PyVal) : 0 ≤ weatherScore v := by
  unfold weatherScore
  repeat' split
  all_goals omega

theorem terrainScore_nonneg (v : PyVal) : 0 ≤ terrainScore v := by
  unfold terrainScore
  repeat' split
  all_goals omega

theorem threatScore_nonneg (v : PyVal) : 0 ≤ threatScore v := by
  unfold threatScore
  repeat' split
  all_goals omega

theorem readinessScore_nonneg (v : PyVal) : 0 ≤ readinessScore v := by
  unfold readinessScore
  repeat' split
  all_goals omega

theorem vehicleScore_nonneg (v : PyVal) : 0 ≤ vehicleScore v := by
  unfold vehicleScore
  repeat' split
  all_goals omega

theorem commsScore_nonneg (v : PyVal) : 0 ≤ commsScore v := by
  unfold commsScore
  repeat' split
  all_goals omega

/-- The sustainment block ends in one of exactly three states. -/
theorem sustainmentEval_cases (s m f : PyVal) :
    sustainmentEval s m f = (0, true) ∨ sustainmentEval s m f = (0, false) ∨
      sustainmentEval s m f = (2, true) := by
  unfold sustainmentEval
  repeat' split
  all_goals simp

/-- Every criterion contributes non-negatively, so the total score is
non-negative. -/
theorem feasibility_score_nonneg (i : FeasInput) :
    0 ≤ (compute_operation_feasibility i).score := by
  have h1 := weatherScore_nonneg i.weather
  have h2 := terrainScore_nonneg i.terrain
  have h3 := threatScore_nonneg i.threat
  have h4 := readinessScore_nonneg i.readiness
  have h5 := vehicleScore_nonneg i.vehicle_status
  have h6 := commsScore_nonneg i.comms
  have h7 : 0 ≤ (sustainmentEval i.sustainment i.supply_mres i.supply_fuel).1 := by
    rcases sustainmentEval_cases i.sustainment i.supply_mres i.supply_fuel with h | h | h <;>
      simp [h]
  rw [compute_score_eq]
  omega

/-- Full case analysis of the decision expression against its thresholds. -/
theorem decisionOf_spec (s : Int) (ok : Bool) :
    (decisionOf s ok = "GO" ↔ (7 ≤ s ∧ ok = true)) ∧
    (¬(7 ≤ s ∧ ok = true) → (decisionOf s ok = "GO WITH CAVEATS" ↔ 5 ≤ s)) ∧
    (¬(7 ≤ s ∧ ok = true) → ¬(5 ≤ s) → decisionOf s ok = "NO-GO") := by
  unfold decisionOf
  by_cases h1 : 7 ≤ s ∧ ok = true
  · rw [if_pos h1]
    exact ⟨⟨fun _ => h1, fun _ => rfl⟩, fun h => absurd h1 h, fun h => absurd h1 h⟩
  · rw [if_neg h1]
    by_cases h2 : 5 ≤ s
    · rw [if_pos h2]
      exact ⟨⟨fun h => absurd h (by decide), fun hh => absurd hh h1⟩,
             fun _ => ⟨fun _ => h2, fun _ => rfl⟩, fun _ h => absurd h2 h⟩
    · rw [if_neg h2]
      exact ⟨⟨fun h => absurd h (by decide), fun hh => absurd hh h1⟩,
             fun _ => ⟨fun h => absurd h (by decide), fun hh => absurd hh h2⟩,
             fun _ _ => rfl⟩

/-- With `sustainment_ok = false` the decision can never be GO. -/
theorem decisionOf_false_ne_GO (s : Int) : decisionOf s false ≠ "GO" := by
  unfold decisionOf
  rw [if_neg (by simp)]
  split <;> decide

/-- The decision rank is monotone in the (score, sustainment_ok) pair. -/
theorem decisionOf_mono {s1 s2 : Int} {b1 b2 : Bool} (hs : s1 ≤ s2) (hb : b1 ≤ b2) :
    decRank (decisionOf s1 b1) ≤ decRank (decisionOf s2 b2) := by
  unfold decisionOf
  by_cases h1 : 7 ≤ s1 ∧ b1 = true
  · have hb2 : b2 = true := by
      have h1b := h1.2
      subst h1b
      cases b2
      · exact absurd hb (by decide)
      · rfl
    rw [if_pos h1, if_pos ⟨by omega, hb2⟩]
  · rw [if_neg h1]
    by_cases h2 : 7 ≤ s2 ∧ b2 = true
    · rw [if_pos h2]
      split <;> decide
    · rw [if_neg h2]
      by_cases h3 : 5 ≤ s1
      · rw [if_pos h3, if_pos (by omega : 5 ≤ s2)]
      · rw [if_neg h3]
        split <;> decide

/-- An input with every record set to `None`: every criterion raises at its
first extraction, so all sub-scores are 0. -/
def allNoneInput : FeasInput :=
  { weather := .vNone, terrain := .vNone, threat := .vNone
    readiness := .vNone, vehicle_status := .vNone
    supply_mres := .vNone, supply_fuel := .vNone, comms := .vNone
    sustainment := .vNone }

/-- A maximal input: favorable defaults everywhere, LOW threat, a fully
operational vehicle fleet, and a truthy sustainment dict whose (defaulted)
requirements are met. -/
def maxFeasInput : FeasInput :=
  { weather := .vDict [], terrain := .vDict []
    threat := .vDict [("threat_level", .vStr "LOW")]
    readiness := .vDict []
    vehicle_status := .vDict [("operational", .vInt 1), ("total", .vInt 1)]
    supply_mres := .vDict [], supply_fuel := .vDict [], comms := .vDict []
    sustainment := .vDict [("requirements", .vDict [])] }

/-- A sustainment shortfall: 10 MREs on hand against 100 required. -/
def shortfallInput : FeasInput :=
  { emptyFeasInput with
    sustainment := .vDict [("requirements",
      .vDict [("mres_required", .vInt 100), ("fuel_required_gallons", .vInt 50)])]
    supply_mres := .vDict [("quantity", .vInt 10)]
    supply_fuel := .vDict [("quantity", .vInt 50)] }

/-! ## Claims C1, C3, C4, C7, C8 -/

/-- Claim C1, counterexample: an empty weather dict does not contribute 0 to
the score — the missing fields fall back to the favorable defaults wind 10
and visibility 10000, contributing 2 points. -/
theorem C1_counterexample :
    weatherScore (PyVal.vDict []) = 2 ∧ ¬ weatherScore (PyVal.vDict []) = 0 := by
  decide

/-- Claim C1, amended: a criterion input whose extraction raises (any
non-dict value) contributes exactly 0 points; a criterion given an empty
dict instead takes built-in defaults which for
weather/terrain/threat/readiness/comms are favorable (2/1/1/2/2 points) —
only the vehicle criterion yields 0 on an empty dict.  The computation
completes with one of the three decisions on every input EXCEPT one
uncaught error path: a truthy sustainment dict whose `requirements` value
is not a dict makes the unguarded narrative rendering raise, and the call
never returns. -/
theorem C1_amended_fallbacks :
    (∀ v : PyVal, isDictV v = false →
        weatherScore v = 0 ∧ terrainScore v = 0 ∧ threatScore v = 0 ∧
        readinessScore v = 0 ∧ vehicleScore v = 0 ∧ commsScore v = 0) ∧
    (weatherScore (.vDict []) = 2 ∧ terrainScore (.vDict []) = 1 ∧
     threatScore (.vDict []) = 1 ∧ readinessScore (.vDict []) = 2 ∧
     vehicleScore (.vDict []) = 0 ∧ commsScore (.vDict []) = 2) ∧
    (∀ i : FeasInput, requirementsLineRaises i.sustainment = false →
        compute_operation_feasibility_run i = .ok (compute_operation_feasibility i) ∧
        ((compute_operation_feasibility i).decision = "GO" ∨
         (compute_operation_feasibility i).decision = "GO WITH CAVEATS" ∨
         (compute_operation_feasibility i).decision = "NO-GO")) ∧
    (∃ i : FeasInput, compute_operation_feasibility_run i = .exc "AttributeError") := by
  refine ⟨?_, ?_, ?_, ?_⟩
  · intro v hv
    cases v with
    | vDict d => simp [isDictV] at hv
    | vInt n => exact ⟨rfl, rfl, rfl, rfl, rfl, rfl⟩
    | vStr s => exact ⟨rfl, rfl, rfl, rfl, rfl, rfl⟩
    | vNone => exact ⟨rfl, rfl, rfl, rfl, rfl, rfl⟩
  · exact ⟨by decide, by decide, by decide, by decide, vehicleScore_empty_dict, by decide⟩
  · intro i h
    refine ⟨by simp [compute_operation_feasibility_run, h], ?_⟩
    rw [compute_decision_eq]
    unfold decisionOf
    split
    · exact Or.inl rfl
    · split
      · exact Or.inr (Or.inl rfl)
      · exact Or.inr (Or.inr rfl)
  · exact ⟨{ emptyFeasInput with sustainment := .vDict [("requirements", .vInt 5)] }, rfl⟩

/-- Claim C1, witness: malformed (non-dict) criterion inputs contribute 0,
and an input that avoids the unguarded requirements rendering returns. -/
theorem C1_witness :
    (weatherScore (PyVal.vInt 3) = 0 ∧ commsScore PyVal.vNone = 0) ∧
    compute_operation_feasibility_run emptyFeasInput =
      .ok (compute_operation_feasibility emptyFeasInput) :=
  ⟨⟨(C1_amended_fallbacks.1 (PyVal.vInt 3) rfl).1,
    (C1_amended_fallbacks.1 PyVal.vNone rfl).2.2.2.2.2⟩,
   (C1_amended_fallbacks.2.2.1 emptyFeasInput rfl).1⟩

/-- Claim C3: the decision is GO iff score ≥ 7 and sustainment_ok; otherwise
GO WITH CAVEATS iff score ≥ 5; otherwise NO-GO. -/
theorem C3_decision_thresholds (i : FeasInput) :
    ((compute_operation_feasibility i).decision = "GO" ↔
      (7 ≤ (compute_operation_feasibility i).score ∧
        (compute_operation_feasibility i).sustainment_ok = true)) ∧
    (¬(7 ≤ (compute_operation_feasibility i).score ∧
        (compute_operation_feasibility i).sustainment_ok = true) →
      ((compute_operation_feasibility i).decision = "GO WITH CAVEATS" ↔
        5 ≤ (compute_operation_feasibility i).score)) ∧
    (¬(7 ≤ (compute_operation_feasibility i).score ∧
        (compute_operation_feasibility i).sustainment_ok = true) →
      ¬(5 ≤ (compute_operation_feasibility i).score) →
      (compute_operation_feasibility i).decision = "NO-GO") :=
  decisionOf_spec (compute_operation_feasibility i).score
    (compute_operation_feasibility i).sustainment_ok

/-- Claim C3, witness: the all-empty input scores 8 with sustainment OK, and
the GO side of the iff indeed yields GO. -/
theorem C3_witness : (compute_operation_feasibility emptyFeasInput).decision = "GO" :=
  (C3_decision_thresholds emptyFeasInput).1.mpr
    (by rw [compute_empty_eval]; exact ⟨by decide, rfl⟩)

/-- Claim C4: a supplied (truthy dict) sustainment input with numeric
requirement and on-hand quantities, where MREs or fuel fall short, forces
sustainment_ok false, zero sustainment points, and makes GO unreachable. -/
theorem C4_sustainment_shortfall (i : FeasInput) (rm rf hm hf : Int)
    (h1 : pyTruthy i.sustainment = true) (h2 : isDictV i.sustainment = true)
    (h3 : susReqField i.sustainment "mres_required" = some (.vInt rm))
    (h4 : susReqField i.sustainment "fuel_required_gallons" = some (.vInt rf))
    (h5 : pyGet i.supply_mres "quantity" (.vInt 0) = some (.vInt hm))
    (h6 : pyGet i.supply_fuel "quantity" (.vInt 0) = some (.vInt hf))
    (hshort : hm < rm ∨ hf < rf) :
    (compute_operation_feasibility i).sustainment_ok = false ∧
    (sustainmentEval i.sustainment i.supply_mres i.supply_fuel).1 = 0 ∧
    (compute_operation_feasibility i).decision ≠ "GO" := by
  have hse : sustainmentEval i.sustainment i.supply_mres i.supply_fuel = (0, false) := by
    unfold sustainmentEval
    rw [h1, h2, h3, h4, h5, h6]
    rcases hshort with hlt | hlt
    · have e1 : decide (rm ≤ hm) = false := decide_eq_false (by omega)
      simp [pyGe, e1]
    · by_cases hmr : rm ≤ hm
      · have e1 : decide (rm ≤ hm) = true := decide_eq_true hmr
        have e2 : decide (rf ≤ hf) = false := decide_eq_false (by omega)
        simp [pyGe, e1, e2]
      · have e1 : decide (rm ≤ hm) = false := decide_eq_false hmr
        simp [pyGe, e1]
  refine ⟨?_, ?_, ?_⟩
  · show (sustainmentEval i.sustainment i.supply_mres i.supply_fuel).2 = false
    rw [hse]
  · rw [hse]
  · have hd : (compute_operation_feasibility i).decision =
        decisionOf (compute_operation_feasibility i).score
          (sustainmentEval i.sustainment i.supply_mres i.supply_fuel).2 := rfl
    rw [hd, hse]
    exact decisionOf_false_ne_GO _

/-- Claim C4, witness: 10 MREs on hand against 100 required blocks GO. -/
theorem C4_witness :
    (compute_operation_feasibility shortfallInput).sustainment_ok = false ∧
    (sustainmentEval shortfallInput.sustainment shortfallInput.supply_mres
      shortfallInput.supply_fuel).1 = 0 ∧
    (compute_operation_feasibility shortfallInput).decision ≠ "GO" :=
  C4_sustainment_shortfall shortfallInput 100 50 10 50 rfl rfl rfl rfl rfl rfl
    (Or.inl (by decide))

/-- Claim C7: with NO-GO < GO WITH CAVEATS < GO, the decision is monotone in
the criterion contributions and in the sustainment_ok flag — holding each
criterion's contribution (and the flag) from not decreasing can only move
the decision up; changing a single criterion is the special case where the
remaining hypotheses hold by reflexivity. -/
theorem C7_decision_monotone (i1 i2 : FeasInput)
    (hw : weatherScore i1.weather ≤ weatherScore i2.weather)
    (ht : terrainScore i1.terrain ≤ terrainScore i2.terrain)
    (hth : threatScore i1.threat ≤ threatScore i2.threat)
    (hr : readinessScore i1.readiness ≤ readinessScore i2.readiness)
    (hv : vehicleScore i1.vehicle_status ≤ vehicleScore i2.vehicle_status)
    (hc : commsScore i1.comms ≤ commsScore i2.comms)
    (hsp : (sustainmentEval i1.sustainment i1.supply_mres i1.supply_fuel).1 ≤
           (sustainmentEval i2.sustainment i2.supply_mres i2.supply_fuel).1)
    (hok : (sustainmentEval i1.sustainment i1.supply_mres i1.supply_fuel).2 ≤
           (sustainmentEval i2.sustainment i2.supply_mres i2.supply_fuel).2) :
    decRank (compute_operation_feasibility i1).decision ≤
      decRank (compute_operation_feasibility i2).decision :=
  decisionOf_mono (by omega) hok

/-- Claim C7, witness: from the all-None input (every criterion 0) to the
all-empty-dict input (favorable defaults) the decision does not go down. -/
theorem C7_witness :
    decRank (compute_operation_feasibility allNoneInput).decision ≤
      decRank (compute_operation_feasibility emptyFeasInput).decision :=
  C7_decision_monotone allNoneInput emptyFeasInput (by decide) (by decide) (by decide)
    (by decide)
    (by show vehicleScore PyVal.vNone ≤ vehicleScore (PyVal.vDict [])
        rw [vehicleScore_empty_dict]; decide)
    (by decide) (by decide) (by decide)

/-- Claim C8, counterexample: no input at all can make the feasibility score
negative — every criterion only ever adds points. -/
theorem C8_counterexample :
    ¬ ∃ i : FeasInput, (compute_operation_feasibility i).score < 0 := by
  rintro ⟨i, h⟩
  exact absurd h (not_lt.mpr (feasibility_score_nonneg i))

/-- Claim C8, amended: the score is not clamped above (it can exceed the
documented 0–10 range, reaching 12) but it can never go negative. -/
theorem C8_amended_bounds :
    (∀ i : FeasInput, 0 ≤ (compute_operation_feasibility i).score) ∧
    (∃ i : FeasInput, 10 < (compute_operation_feasibility i).score) := by
  refine ⟨feasibility_score_nonneg, ⟨maxFeasInput, ?_⟩⟩
  show 10 < weatherScore (.vDict []) + terrainScore (.vDict []) +
      threatScore (.vDict [("threat_level", .vStr "LOW")]) + readinessScore (.vDict []) +
      vehicleScore (.vDict [("operational", .vInt 1), ("total", .vInt 1)]) +
      commsScore (.vDict []) +
      (sustainmentEval (.vDict [("requirements", .vDict [])]) (.vDict []) (.vDict [])).1
  rw [vehicleScore_one_of_one]
  decide

/-! ## emit_tool_event (src/app.py, lines 257-286)

Only the run-history bookkeeping is modelled: the per-run `tools` list and
how one incoming event transforms it.  The stats counters and the
`socketio.emit` fan-out do not touch the list.  An entry's `duration` field
is `none` exactly when the Python dict lacks the `'duration'` key (error
entries always carry the key). -/

/-- One element of a run record's `tools` list.  `section`, `parameters` and
the timestamps do not participate in the matching logic and are omitted. -/
structure ToolEntry where
  tool_name : String
  duration : Option Int
  result : Option String
  error : Option String
deriving DecidableEq, Repr

/-- The three tool telemetry events, with the payload fields the history
logic reads. -/
inductive ToolEvent where
  | tool_start (tool_name : String)
  | tool_complete (tool_name : String) (duration : Int) (result : String)
  | tool_error (tool_name : String) (duration : Int) (error : String)

/-- The `for t in reversed(tools)` search of the `tool_complete` branch:
update the LAST entry with the same name and no duration yet; `none` when no
entry qualifies.  Preferring a match in the tail makes the recursion scan
from the most recent entry, like the reversed Python loop. -/
def completeLastUnmatched : List ToolEntry → String → Int → String → Option (List ToolEntry)
  | [], _, _, _ => none
  | t :: ts, n, d, r =>
      match completeLastUnmatched ts n d r with
      | some ts' => some (t :: ts')
      | none =>
          if t.tool_name = n ∧ t.duration = none then
            some ({ t with duration := some d, result := some r } :: ts)
          else none

/-- Shallow embedding of the run-history update in `emit_tool_event`:
`tool_start` appends a fresh entry without a duration, `tool_complete`
updates the last unmatched start (or silently does nothing), and
`tool_error` appends a fresh, already-complete entry. -/
def emit_tool_event (tools : List ToolEntry) (e : ToolEvent) : List ToolEntry :=
  match e with
  | .tool_start n =>
      tools ++ [{ tool_name := n, duration := none, result := none, error := none }]
  | .tool_complete n d r =>
      match completeLastUnmatched tools n d r with
      | some tools' => tools'
      | none => tools
  | .tool_error n d err =>
      tools ++ [{ tool_name := n, duration := some d, result := none, error := some err }]

/-- When no entry of the list is an unmatched start for `n`, the reversed
search finds nothing. -/
theorem completeLast_no_match (l : List ToolEntry) (n : String) (d : Int) (r : String)
    (h : ∀ t ∈ l, ¬(t.tool_name = n ∧ t.duration = none)) :
    completeLastUnmatched l n d r = none := by
  induction l with
  | nil => rfl
  | cons t ts ih =>
      have hts : completeLastUnmatched ts n d r = none :=
        ih (fun u hu => h u (List.mem_cons_of_mem _ hu))
      have hhd := h t (List.mem_cons_self t ts)
      simp [completeLastUnmatched, hts, hhd]

/-- The reversed search updates exactly the last unmatched start for `n`. -/
theorem completeLast_decomp (l1 l2 : List ToolEntry) (t : ToolEntry) (n : String)
    (d : Int) (r : String)
    (h1 : t.tool_name = n) (h2 : t.duration = none)
    (h3 : ∀ u ∈ l2, ¬(u.tool_name = n ∧ u.duration = none)) :
    completeLastUnmatched (l1 ++ t :: l2) n d r =
      some (l1 ++ { t with duration := some d, result := some r } :: l2) := by
  induction l1 with
  | nil =>
      have hl2 := completeLast_no_match l2 n d r h3
      simp [completeLastUnmatched, hl2, h1, h2]
  | cons u l1 ih =>
      simp [completeLastUnmatched, ih]

/-! ## Claim C2 -/

/-- Claim C2, counterexample: after a `tool_start` for a tool, a `tool_error`
for the same tool is NOT attached to that unmatched start entry — the code
appends a brand-new entry, leaving the start entry still without a duration,
so the claimed invariant fails for error events. -/
theorem C2_counterexample :
    emit_tool_event (emit_tool_event [] (.tool_start "get_weather_conditions"))
        (.tool_error "get_weather_conditions" 2 "boom") =
      [{ tool_name := "get_weather_conditions", duration := none,
         result := none, error := none },
       { tool_name := "get_weather_conditions", duration := some 2,
         result := none, error := some "boom" }] := by
  decide

/-- Claim C2, amended: only `tool_complete` events are matched to the most
recent start entry of the same tool_name without a duration (and a complete
with no such entry is dropped silently, leaving the list unchanged);
`tool_error` events never match — they append a fresh entry carrying their
own duration and error, leaving every existing entry unchanged. -/
theorem C2_amended_matching :
    (∀ (tools : List ToolEntry) (n : String) (d : Int) (r : String),
        (∀ t ∈ tools, ¬(t.tool_name = n ∧ t.duration = none)) →
        emit_tool_event tools (.tool_complete n d r) = tools) ∧
    (∀ (l1 l2 : List ToolEntry) (t : ToolEntry) (n : String) (d : Int) (r : String),
        t.tool_name = n → t.duration = none →
        (∀ u ∈ l2, ¬(u.tool_name = n ∧ u.duration = none)) →
        emit_tool_event (l1 ++ t :: l2) (.tool_complete n d r) =
          l1 ++ { t with duration := some d, result := some r } :: l2) ∧
    (∀ (tools : List ToolEntry) (n : String) (d : Int) (err : String),
        emit_tool_event tools (.tool_error n d err) =
          tools ++ [{ tool_name := n, duration := some d, result := none,
                      error := some err }]) := by
  refine ⟨?_, ?_, ?_⟩
  · intro tools n d r h
    simp [emit_tool_event, completeLast_no_match tools n d r h]
  · intro l1 l2 t n d r h1 h2 h3
    simp [emit_tool_event, completeLast_decomp l1 l2 t n d r h1 h2 h3]
  · intro tools n d err
    rfl

/-- Claim C2, witness: a complete event attaches to the one unmatched start,
and a second complete for the same tool is dropped silently. -/
theorem C2_witness :
    emit_tool_event [{ tool_name := "check_supply_inventory", duration := none,
                       result := none, error := none }]
        (.tool_complete "check_supply_inventory" 1 "ok") =
      [{ tool_name := "check_supply_inventory", duration := some 1,
         result := some "ok", error := none }] ∧
    emit_tool_event [{ tool_name := "check_supply_inventory", duration := some 1,
                       result := some "ok", error := none }]
        (.tool_complete "check_supply_inventory" 2 "late") =
      [{ tool_name := "check_supply_inventory", duration := some 1,
         result := some "ok", error := none }] :=
  ⟨C2_amended_matching.2.1 [] []
      { tool_name := "check_supply_inventory", duration := none,
        result := none, error := none }
      "check_supply_inventory" 1 "ok" rfl rfl (by simp),
   C2_amended_matching.1
      [{ tool_name := "check_supply_inventory", duration := some 1,
         result := some "ok", error := none }]
      "check_supply_inventory" 2 "late" (by simp)⟩

/-! ## monitor_tool (src/tools/monitoring.py, lines 18-85)

The wrapper is modelled as a function of the wrapped call's outcome (normal
return or raised exception) and of the two clock readings `time.time()`
takes; it returns the emitted telemetry events and the wrapper's own
outcome.  The payload shaping of `result_data` and the string truncations do
not affect any claim and are elided. -/

/-- Telemetry events the monitoring wrapper can emit. -/
inductive MonEvent where
  | tool_start (tool_name sectionName : String)
  | tool_complete (tool_name sectionName : String) (duration : Int) (success : Bool)
  | tool_error (tool_name sectionName : String) (duration : Int) (error : String)
      (success : Bool)
deriving DecidableEq, Repr

/-- Shallow embedding of the `monitor_tool` decorator's wrapper.
`callbackSet` models whether the module-global `_tool_callback` is set (the
three `if _tool_callback:` guards); `t0`/`t1` are the start/end clock
readings, so `t1 - t0` is the emitted duration. -/
def monitor_tool {α : Type} (tool_name sectionName : String) (callbackSet : Bool)
    (t0 t1 : Int) (run : PyOutcome α) : List MonEvent × PyOutcome α :=
  let startEvs := if callbackSet then [MonEvent.tool_start tool_name sectionName] else []
  match run with
  | .ok v =>
      (startEvs ++ (if callbackSet then
          [MonEvent.tool_complete tool_name sectionName (t1 - t0) true] else []),
       .ok v)
  | .exc e =>
      (startEvs ++ (if callbackSet then
          [MonEvent.tool_error tool_name sectionName (t1 - t0) e false] else []),
       .exc e)

/-- Claim C5: with the callback set and a clock that does not run backwards,
the wrapper emits exactly one tool_start followed by exactly one
tool_complete (success true) on normal return — returning the tool's value
unchanged — or exactly one tool_error (success false, duration ≥ 0) on an
exception, which is re-raised; never both. -/
theorem C5_monitor_events {α : Type} (n s : String) (t0 t1 : Int) (run : PyOutcome α)
    (hclock : t0 ≤ t1) :
    (∀ v, run = .ok v →
        (monitor_tool n s true t0 t1 run).1 =
          [.tool_start n s, .tool_complete n s (t1 - t0) true] ∧
        (monitor_tool n s true t0 t1 run).2 = .ok v) ∧
    (∀ e, run = .exc e →
        (monitor_tool n s true t0 t1 run).1 =
          [.tool_start n s, .tool_error n s (t1 - t0) e false] ∧
        0 ≤ t1 - t0 ∧
        (monitor_tool n s true t0 t1 run).2 = .exc e) := by
  refine ⟨?_, ?_⟩
  · rintro v rfl
    exact ⟨rfl, rfl⟩
  · rintro e rfl
    exact ⟨rfl, by omega, rfl⟩

/-- Claim C5, witness: a returning tool and a raising tool, both monitored
with the callback set, at clock readings 0 and 3. -/
theorem C5_witness :
    ((monitor_tool "get_weather_conditions" "S-2" true 0 3
        (PyOutcome.ok (42 : Int))).1 =
      [.tool_start "get_weather_conditions" "S-2",
       .tool_complete "get_weather_conditions" "S-2" 3 true] ∧
     (monitor_tool "get_weather_conditions" "S-2" true 0 3
        (PyOutcome.ok (42 : Int))).2 = .ok 42) ∧
    ((monitor_tool "get_mission_status" "S-3" true 0 3
        (PyOutcome.exc (α := Int) "timeout")).1 =
      [.tool_start "get_mission_status" "S-3",
       .tool_error "get_mission_status" "S-3" 3 "timeout" false] ∧
     0 ≤ (3 : Int) ∧
     (monitor_tool "get_mission_status" "S-3" true 0 3
        (PyOutcome.exc (α := Int) "timeout")).2 = .exc "timeout") :=
  ⟨(C5_monitor_events "get_weather_conditions" "S-2" 0 3 (PyOutcome.ok (42 : Int))
      (by decide)).1 42 rfl,
   (C5_monitor_events "get_mission_status" "S-3" 0 3 (PyOutcome.exc (α := Int) "timeout")
      (by decide)).2 "timeout" rfl⟩

/-! ## generate_decision_package (src/tools/report_generation.py, lines 341-376) -/

/-- Is `needle` a prefix of `hay` (character lists)? -/
def charsPre : List Char → List Char → Bool
  | [], _ => true
  | _ :: _, [] => false
  | a :: as2, b :: bs => a == b && charsPre as2 bs

/-- Does `hay` contain `needle` as a contiguous substring? -/
def charsSub (needle : List Char) : List Char → Bool
  | [] => needle.isEmpty
  | hay@(_ :: rest) => charsPre needle hay || charsSub needle rest

/-- Python `needle in hay` on strings. -/
def strIn (needle hay : String) : Bool :=
  charsSub needle.data hay.data

/-- The feasibility-score loop of `generate_decision_package`: start at 10;
for each issue, subtract 3 if it mentions "fuel", 2 if "vehicle", 2 if
"personnel" (case-insensitive substring tests, not mutually exclusive). -/
def decisionPackageScore (issues : List String) : Int :=
  issues.foldl
    (fun score issue =>
      let s1 := if strIn "fuel" (lowerStr issue) then score - 3 else score
      let s2 := if strIn "vehicle" (lowerStr issue) then s1 - 2 else s1
      if strIn "personnel" (lowerStr issue) then s2 - 2 else s2)
    10

/-- The required-reports loop: LOGSTAT for fuel/supply issues, PERSTAT for
personnel/casualty, SPOT for enemy/contact (duplicates collected here,
removed below). -/
def requiredReports (issues : List String) : List String :=
  issues.foldl
    (fun acc issue =>
      let a1 := if strIn "fuel" (lowerStr issue) || strIn "supply" (lowerStr issue)
                then acc ++ ["LOGSTAT"] else acc
      let a2 := if strIn "personnel" (lowerStr issue) || strIn "casualty" (lowerStr issue)
                then a1 ++ ["PERSTAT"] else a1
      if strIn "enemy" (lowerStr issue) || strIn "contact" (lowerStr issue)
      then a2 ++ ["SPOT"] else a2)
    []

/-- The `DecisionPackage` pydantic model, restricted to the fields the
claims inspect (dtg and constraints omitted). -/
structure DecisionPackage where
  frago_id : String
  mission_summary : String
  go_no_go : String
  score : Int
  required_reports : List String
  recommendations : List String
  risk_assessment : String

/-- The dict returned by `generate_decision_package`. -/
structure DecisionPackageResult where
  decision : String
  package : DecisionPackage
  requires_immediate_action : Bool

/-- Shallow embedding of `generate_decision_package`.  `list(set(...))`
removes duplicates in an unspecified order; `List.dedup` stands in for it —
membership, which is all the claims use, agrees.  The `assessments`
argument flows only into prose and is omitted. -/
def generate_decision_package (frago_id mission_summary : String)
    (issues recommendations : List String) : DecisionPackageResult :=
  let score := decisionPackageScore issues
  let decision :=
    if 8 ≤ score then "GO" else if 6 ≤ score then "GO WITH CAVEATS" else "NO-GO"
  { decision := decision
    package :=
      { frago_id := frago_id
        mission_summary := mission_summary
        go_no_go := decision
        score := score
        required_reports := (requiredReports issues).dedup
        recommendations := recommendations
        risk_assessment := if 6 ≤ score then "MODERATE" else "HIGH" }
    requires_immediate_action := decision == "NO-GO" }

/-- Claim C6: issues consisting exactly of "fuel shortage" and "personnel
gap" (either order) score 10 − 3 − 2 = 5, decide NO-GO, and require both
LOGSTAT and PERSTAT, for any frago id, mission summary and
recommendations. -/
theorem C6_two_issue_package (fid ms : String) (recs issues : List String)
    (h : issues = ["fuel shortage", "personnel gap"] ∨
         issues = ["personnel gap", "fuel shortage"]) :
    (generate_decision_package fid ms issues recs).package.score = 5 ∧
    (generate_decision_package fid ms issues recs).decision = "NO-GO" ∧
    "LOGSTAT" ∈ (generate_decision_package fid ms issues recs).package.required_reports ∧
    "PERSTAT" ∈ (generate_decision_package fid ms issues recs).package.required_reports := by
  rcases h with h | h <;> subst h <;>
    exact ⟨show decisionPackageScore _ = 5 by decide, rfl,
           show "LOGSTAT" ∈ (requiredReports _).dedup by decide,
           show "PERSTAT" ∈ (requiredReports _).dedup by decide⟩

/-- Claim C6, witness: the package at one concrete ordering. -/
theorem C6_witness :
    (generate_decision_package "FRAGO-017" "Secure OBJ LION"
        ["fuel shortage", "personnel gap"] ["rehearse PACE"]).package.score = 5 ∧
    (generate_decision_package "FRAGO-017" "Secure OBJ LION"
        ["fuel shortage", "personnel gap"] ["rehearse PACE"]).decision = "NO-GO" ∧
    "LOGSTAT" ∈ (generate_decision_package "FRAGO-017" "Secure OBJ LION"
        ["fuel shortage", "personnel gap"] ["rehearse PACE"]).package.required_reports ∧
    "PERSTAT" ∈ (generate_decision_package "FRAGO-017" "Secure OBJ LION"
        ["fuel shortage", "personnel gap"] ["rehearse PACE"]).package.required_reports :=
  C6_two_issue_package "FRAGO-017" "Secure OBJ LION" ["rehearse PACE"]
    ["fuel shortage", "personnel gap"] (Or.inl rfl)

/-! ## The handle_query background worker (src/app.py, lines 121-185)

The worker function binds `thread_local.run_id`, runs the query inside
`try: ... except Exception: ... finally: ...`, and in the `finally` clause
deletes the binding (the `del` wrapped in `try/except AttributeError`).  The
thread-local slot is modelled as explicit state; the events pushed to the
socket are carried along for fidelity of the two branches. -/

/-- The worker's observable state: the thread-local `run_id` binding and the
socket events emitted so far. -/
structure WorkerState where
  run_id : Option String
  emitted : List String
deriving DecidableEq, Repr

/-- The generic `try/except Exception/finally` shape: run the body, on a
raised exception run the handler, and in every case run the finalizer
last. -/
def pyTryExceptFinally {σ α : Type} (body : σ → σ × PyOutcome α)
    (handler : σ → String → σ) (finalizer : σ → σ) (st : σ) : σ :=
  match body st with
  | (st1, .ok _) => finalizer st1
  | (st1, .exc e) => finalizer (handler st1 e)

/-- The try-block of the worker: emit `query_status`, then run the agent;
on success emit the response, stats and run-summary events.  The body never
touches `run_id`. -/
def worker_body (outcome : PyOutcome String) (st : WorkerState) :
    WorkerState × PyOutcome String :=
  let st1 : WorkerState := { st with emitted := st.emitted ++ ["query_status"] }
  match outcome with
  | .ok r =>
      ({ st1 with emitted :=
          st1.emitted ++ ["query_response", "stats_update", "run_summary"] }, .ok r)
  | .exc e => (st1, .exc e)

/-- The `except Exception` clause: emit `query_error`. -/
def worker_handler (st : WorkerState) (e : String) : WorkerState :=
  { st with emitted := st.emitted ++ ["query_error"] }

/-- The `finally` clause: `del thread_local.run_id`, with `AttributeError`
(no binding) silently ignored. -/
def clearRunId (st : WorkerState) : WorkerState :=
  match st.run_id with
  | some _ => { st with run_id := none }
  | none => st

/-- Shallow embedding of the `process_query` worker function inside
`handle_query`: bind a fresh `run_id`, then try/except/finally as in the
source.  `st0` is whatever state the (possibly reused) thread already had. -/
def process_query_worker (rid : String) (outcome : PyOutcome String)
    (st0 : WorkerState) : WorkerState :=
  let st1 : WorkerState := { st0 with run_id := some rid }
  pyTryExceptFinally (worker_body outcome) worker_handler clearRunId st1

/-- Claim C9: whatever the agent call does — return normally or raise — the
worker leaves with the thread-local run identifier cleared, while the
identifier was bound throughout the body (which never rebinds it), so a
reused thread cannot start a later query with a stale binding. -/
theorem C9_runid_cleared (rid : String) (outcome : PyOutcome String)
    (st0 : WorkerState) :
    (process_query_worker rid outcome st0).run_id = none ∧
    ((worker_body outcome { st0 with run_id := some rid }).1).run_id = some rid := by
  cases outcome <;> exact ⟨rfl, rfl⟩

/-! ## MCOAService.process_query (src/mcoa_service.py, lines 184-264)

The method is modelled as a function of: whether the telemetry callback is
set, which callback invocations raise (`cbRaises ev = some msg` means a call
with event type `ev` raises `msg`), the conversation history before the
call, the query, and the agent-run outcome.  The outcome carries the
already-extracted response text (the `_to_text` / narrative-preference step
is total), a guardrail trip, or another exception.  The function returns
its own outcome — it re-raises when a callback inside an except-handler
raises — together with the final `conversation_history`. -/

/-- One `{"content": ..., "role": ...}` turn of the conversation history. -/
structure HistEntry where
  content : String
  role : String
deriving DecidableEq, Repr

/-- Outcome of `Runner.run` as `process_query` distinguishes it. -/
inductive AgentOutcome where
  | success (response_text : String)
  | guardrail
  | failure (msg : String)

/-- The fields of the returned dict that the claims inspect. -/
structure PQReturn where
  success : Bool
  response : String
deriving DecidableEq, Repr

/-- Invoking `self.tool_callback(ev, ...)`: no-op when unset, otherwise may
raise according to `cbRaises`. -/
def invokeCb (cbSet : Bool) (cbRaises : String → Option String) (ev : String) :
    Option String :=
  if cbSet then cbRaises ev else none

/-- `MCOAService._get_violation_message`. -/
def get_violation_message (query : String) : String :=
  let q := lowerStr query
  if strIn "classified" q || strIn "secret" q then
    "CLASSIFICATION WARNING: Request for classified information blocked."
  else if strIn "ssn" q || strIn "social security" q then
    "PII PROTECTION: Personal information request blocked."
  else if strIn "real world" q || strIn "actual operation" q then
    "OPSEC VIOLATION: Real operational data request blocked."
  else "Security violation detected."

/-- The `except Exception` handler: emit `processing_error` (an exception
there propagates out of the method), then return the error dict.  The
history is whatever it was when the exception arrived. -/
def handleGenericError (cbSet : Bool) (cbRaises : String → Option String)
    (msg : String) (hist : List HistEntry) : PyOutcome PQReturn × List HistEntry :=
  match invokeCb cbSet cbRaises "processing_error" with
  | some e2 => (.exc e2, hist)
  | none => (.ok { success := false, response := "Error processing query: " ++ msg }, hist)

/-- Shallow embedding of `MCOAService.process_query`: emit
`processing_start`; run the agent; on success append the user and assistant
turns exactly when the response text is non-empty, then emit
`processing_complete`; a guardrail trip emits `guardrail_triggered` and
returns the security-block dict; any exception inside the try lands in the
generic handler. -/
def process_query (cbSet : Bool) (cbRaises : String → Option String)
    (hist : List HistEntry) (query : String) (outcome : AgentOutcome) :
    PyOutcome PQReturn × List HistEntry :=
  match invokeCb cbSet cbRaises "processing_start" with
  | some e => handleGenericError cbSet cbRaises e hist
  | none =>
    match outcome with
    | .guardrail =>
        match invokeCb cbSet cbRaises "guardrail_triggered" with
        | some e2 => (.exc e2, hist)
        | none =>
            (.ok { success := false,
                   response := "[SECURITY BLOCK] " ++ get_violation_message query },
             hist)
    | .failure msg => handleGenericError cbSet cbRaises msg hist
    | .success response_text =>
        let hist' :=
          if response_text ≠ "" then
            hist ++ [{ content := query, role := "user" },
                     { content := response_text, role := "assistant" }]
          else hist
        match invokeCb cbSet cbRaises "processing_complete" with
        | some e => handleGenericError cbSet cbRaises e hist'
        | none => (.ok { success := true, response := response_text }, hist')

/-- A callback that raises only when notified of processing completion —
e.g. a broken socket at the final emission. -/
def cbFailOnComplete : String → Option String :=
  fun ev => if ev = "processing_complete" then some "socket closed" else none

/-- Claim C10, counterexample: with a callback that raises on
`processing_complete`, a successful agent run appends the two turns and the
call then returns success = false — a failure return whose history differs
from the history before the call. -/
theorem C10_counterexample :
    (process_query true cbFailOnComplete [] "status?" (.success "All green")).1 =
      .ok { success := false, response := "Error processing query: socket closed" } ∧
    (process_query true cbFailOnComplete [] "status?" (.success "All green")).2 =
      [{ content := "status?", role := "user" },
       { content := "All green", role := "assistant" }] ∧
    (process_query true cbFailOnComplete [] "status?" (.success "All green")).2 ≠ [] := by
  exact ⟨rfl, rfl, by decide⟩

/-- Claim C10, amended: the history is unchanged on a guardrail block, on an
agent exception, and when the `processing_start` callback raises; on the
success path the user and assistant turns are appended exactly when the
response text is non-empty — and when they were appended, a subsequently
raising `processing_complete` callback still leaves them appended while the
call returns success = false. -/
theorem C10_history_paths :
    (∀ (cbSet : Bool) (cbRaises : String → Option String) (hist : List HistEntry)
        (q : String),
      (process_query cbSet cbRaises hist q .guardrail).2 = hist) ∧
    (∀ (cbSet : Bool) (cbRaises : String → Option String) (hist : List HistEntry)
        (q m : String),
      (process_query cbSet cbRaises hist q (.failure m)).2 = hist) ∧
    (∀ (cbSet : Bool) (cbRaises : String → Option String) (hist : List HistEntry)
        (q : String) (o : AgentOutcome) (e : String),
      invokeCb cbSet cbRaises "processing_start" = some e →
      (process_query cbSet cbRaises hist q o).2 = hist) ∧
    (∀ (cbSet : Bool) (cbRaises : String → Option String) (hist : List HistEntry)
        (q t : String),
      invokeCb cbSet cbRaises "processing_start" = none → t ≠ "" →
      (process_query cbSet cbRaises hist q (.success t)).2 =
        hist ++ [{ content := q, role := "user" },
                 { content := t, role := "assistant" }]) ∧
    (∀ (cbSet : Bool) (cbRaises : String → Option String) (hist : List HistEntry)
        (q : String),
      invokeCb cbSet cbRaises "processing_start" = none →
      (process_query cbSet cbRaises hist q (.success "")).2 = hist) ∧
    (∀ (cbSet : Bool) (cbRaises : String → Option String) (hist : List HistEntry)
        (q t e : String) (r : PQReturn),
      invokeCb cbSet cbRaises "processing_start" = none →
      invokeCb cbSet cbRaises "processing_complete" = some e →
      (process_query cbSet cbRaises hist q (.success t)).1 = .ok r →
      r.success = false) := by
  refine ⟨?_, ?_, ?_, ?_, ?_, ?_⟩
  · intro cbSet cbRaises hist q
    unfold process_query
    cases hs : invokeCb cbSet cbRaises "processing_start" with
    | some e => simp [handleGenericError]; cases invokeCb cbSet cbRaises "processing_error" <;> simp
    | none => simp; cases invokeCb cbSet cbRaises "guardrail_triggered" <;> simp
  · intro cbSet cbRaises hist q m
    unfold process_query
    cases hs : invokeCb cbSet cbRaises "processing_start" with
    | some e => simp [handleGenericError]; cases invokeCb cbSet cbRaises "processing_error" <;> simp
    | none => simp [handleGenericError]; cases invokeCb cbSet cbRaises "processing_error" <;> simp
  · intro cbSet cbRaises hist q o e hs
    unfold process_query
    rw [hs]
    simp [handleGenericError]
    cases invokeCb cbSet cbRaises "processing_error" <;> simp
  · intro cbSet cbRaises hist q t hs ht
    unfold process_query
    rw [hs]
    simp only [if_pos ht]
    cases hc : invokeCb cbSet cbRaises "processing_complete" with
    | some e => simp [handleGenericError]; cases invokeCb cbSet cbRaises "processing_error" <;> simp
    | none => simp
  · intro cbSet cbRaises hist q hs
    unfold process_query
    rw [hs]
    simp only [ne_eq, not_true_eq_false, if_neg, ite_false]
    cases hc : invokeCb cbSet cbRaises "processing_complete" with
    | some e => simp [handleGenericError]; cases invokeCb cbSet cbRaises "processing_error" <;> simp
    | none => simp
  · intro cbSet cbRaises hist q t e r hs hc hr
    unfold process_query at hr
    rw [hs, hc] at hr
    unfold handleGenericError at hr
    cases he : invokeCb cbSet cbRaises "processing_error" with
    | some e2 => rw [he] at hr; cases hr
    | none =>
        rw [he] at hr
        simp only [PyOutcome.ok.injEq] at hr
        rw [← hr]

/-- Claim C10, witness: a guardrail block leaves the history untouched, and
a clean success path appends exactly the two turns. -/
theorem C10_witness :
    (process_query true (fun _ => none)
        [{ content := "hi", role := "user" }] "what is the classified op?"
        .guardrail).2 = [{ content := "hi", role := "user" }] ∧
    (process_query true (fun _ => none) [] "fuel status?"
        (.success "Fuel at 60 percent")).2 =
      [{ content := "fuel status?", role := "user" },
       { content := "Fuel at 60 percent", role := "assistant" }] :=
  ⟨C10_history_paths.1 true (fun _ => none)
      [{ content := "hi", role := "user" }] "what is the classified op?",
   C10_history_paths.2.2.2.1 true (fun _ => none) [] "fuel status?"
      "Fuel at 60 percent" rfl (by decide)⟩
